import Mathlib

/-!
Shallow embedding of the porkDyn dynamic-DNS updater (Rust) and proofs about
its record-reconciliation logic.

Strings of the embedded program are modelled as lists of characters
(`Str := List Char`), so that the splitting, joining and parsing functions of
the source can be translated as structurally recursive Lean functions.
The external DNS provider and the HTTP transport are modelled as an oracle
(`Provider`) whose three operations may fail at the transport level
(`ReqwestError`, standing for `reqwest::Error`) or return a decoded response
value; the side effect of issuing a provider call is made explicit by having
each API function also return the list of calls it performed (`ApiCall`).
-/

deriving instance DecidableEq for Except

namespace PorkDyn

/-- Strings of the embedded program: lists of characters. -/
abbrev Str : Type := List Char

/-- `src/error.rs`: the `DomainError` enum (single variant, carrying the
human-readable validation message). -/
inductive DomainError : Type
  | DomainValidationError (msg : Str)
deriving DecidableEq

/-- `src/domain.rs`: the `Domain` struct — registrable zone, host part and the
original qualified name. -/
structure Domain : Type where
  domain_name : Str
  subdomain : Str
  qualified_name : Str
deriving DecidableEq

/-- `src/domain.rs` `Domain::new`: split the qualified name on dots (Rust
`str::split('.')` keeps empty pieces; `List.splitOn '.'` has the same
semantics); fail when fewer than 3 parts or any empty part; otherwise zone
is the last two parts joined by a dot and the subdomain is the remaining
parts joined by dots.  Rust indexes `parts[len-2]`/`parts[len-1]` (in range
in this branch); the total `List.getD` with default `[]` is used for those
in-range accesses. -/
def Domain.new (qualified_name : Str) : Except DomainError Domain :=
  let parts := qualified_name.splitOn '.'
  if parts.length < 3 then
    .error (.DomainValidationError
      "Domain must have at least 3 parts (e.g., sub.example.com)".data)
  else if parts.any (fun part => part.isEmpty) then
    .error (.DomainValidationError "Domain contains empty parts".data)
  else
    .ok { domain_name :=
            parts.getD (parts.length - 2) [] ++ '.' :: parts.getD (parts.length - 1) []
        , subdomain := List.intercalate ['.'] (parts.take (parts.length - 2))
        , qualified_name := qualified_name }

/-- `src/ip_utils.rs`: the `IpType` enum. -/
inductive IpType : Type
  | V4
  | V6
deriving DecidableEq

/-- `src/ip_utils.rs`: the `RecordType` enum. -/
inductive RecordType : Type
  | A
  | AAAA
deriving DecidableEq

/-- `src/ip_utils.rs` `RecordType::as_str`. -/
def RecordType.as_str : RecordType → Str
  | .A => "A".data
  | .AAAA => "AAAA".data

/-- `src/ip_utils.rs` `impl From<IpType> for RecordType`. -/
def RecordType.fromIp : IpType → RecordType
  | .V4 => .A
  | .V6 => .AAAA

/-!
Model of Rust `core::net::parser`, the platform's standard address parser
used by `IpAddr::from_str`.  Each reader takes the remaining input and
returns `none` on failure (read_atomically is implicit: a failing reader
simply does not consume) or the parsed value plus the rest of the input.
-/

/-- Rust `char::to_digit`: digit value of `c` in the given radix. -/
def charToDigit (c : Char) (radix : Nat) : Option Nat :=
  let d :=
    if '0' ≤ c ∧ c ≤ '9' then some (c.toNat - '0'.toNat)
    else if 'a' ≤ c ∧ c ≤ 'z' then some (c.toNat - 'a'.toNat + 10)
    else if 'A' ≤ c ∧ c ≤ 'Z' then some (c.toNat - 'A'.toNat + 10)
    else none
  match d with
  | some v => if v < radix then some v else none
  | none => none

/-- Digit-reading loop of Rust `Parser::read_number`: accumulates digits with
checked arithmetic in the target integer type (`maxVal` is that type's
maximum, 255 for `u8` octets and 65535 for `u16` groups), failing on
overflow or when more than `maxDigits` digits are read.  Returns the value,
the number of digits consumed and the remaining input. -/
def readNumberAux (radix maxVal : Nat) (maxDigits : Option Nat) :
    Str → Nat → Nat → Option (Nat × Nat × Str)
  | [], result, digitCount => some (result, digitCount, [])
  | c :: cs, result, digitCount =>
    match charToDigit c radix with
    | none => some (result, digitCount, c :: cs)
    | some d =>
      let r := result * radix + d
      if maxVal < r then none
      else
        let dc := digitCount + 1
        match maxDigits with
        | some m =>
          if m < dc then none else readNumberAux radix maxVal maxDigits cs r dc
        | none => readNumberAux radix maxVal maxDigits cs r dc

/-- Rust `Parser::read_number`: reads at least one digit in the given radix;
when `allowLeadingZeros` is false (`allow_zero_prefix` in the source), a
leading `0` followed by further digits is rejected. -/
def readNumber (radix : Nat) (maxDigits : Option Nat) (allowLeadingZeros : Bool)
    (maxVal : Nat) (s : Str) : Option (Nat × Str) :=
  let hasLeadingZero := match s with | c :: _ => c == '0' | [] => false
  match readNumberAux radix maxVal maxDigits s 0 0 with
  | none => none
  | some (result, dc, rest) =>
    if dc = 0 then none
    else if !allowLeadingZeros && hasLeadingZero && decide (1 < dc) then none
    else some (result, rest)

/-- Rust `Parser::read_given_char`. -/
def readGivenChar (c : Char) (s : Str) : Option Str :=
  match s with
  | x :: xs => if x == c then some xs else none
  | [] => none

/-- Rust `Parser::read_separator`: for index 0 just read the item, otherwise
require the separator character first. -/
def readSeparator (sep : Char) (i : Nat) (inner : Str → Option (α × Str))
    (s : Str) : Option (α × Str) :=
  if i = 0 then inner s
  else
    match readGivenChar sep s with
    | some rest => inner rest
    | none => none

/-- Rust `Parser::read_ipv4_addr`: four dot-separated decimal octets, each at
most 3 digits, value at most 255, leading zeros disallowed. -/
def readIpv4Addr (s : Str) : Option ((Nat × Nat × Nat × Nat) × Str) :=
  match readSeparator '.' 0 (readNumber 10 (some 3) false 255) s with
  | none => none
  | some (g0, s0) =>
    match readSeparator '.' 1 (readNumber 10 (some 3) false 255) s0 with
    | none => none
    | some (g1, s1) =>
      match readSeparator '.' 2 (readNumber 10 (some 3) false 255) s1 with
      | none => none
      | some (g2, s2) =>
        match readSeparator '.' 3 (readNumber 10 (some 3) false 255) s2 with
        | none => none
        | some (g3, s3) => some ((g0, g1, g2, g3), s3)

/-- Rust `read_groups` inside `Parser::read_ipv6_addr`.  `fuel` is the number
of group slots still available (`limit - i`), `i` the current group index.
At each position with at least two slots left, a trailing embedded IPv4
address is tried first (filling two groups and stopping); otherwise a
colon-hex group is read.  Returns the groups read, whether an embedded IPv4
tail was read, and the remaining input. -/
def readGroupsAux : Nat → Nat → Str → List Nat × Bool × Str
  | 0, _, s => ([], false, s)
  | fuel + 1, i, s =>
    let tryIpv4 :=
      if 1 ≤ fuel then readSeparator ':' i readIpv4Addr s else none
    match tryIpv4 with
    | some ((a, b, c, d), rest) => ([a * 256 + b, c * 256 + d], true, rest)
    | none =>
      match readSeparator ':' i (readNumber 16 (some 4) true 65535) s with
      | some (g, rest) =>
        let r := readGroupsAux fuel (i + 1) rest
        (g :: r.1, r.2.1, r.2.2)
      | none => ([], false, s)

/-- Rust `Parser::read_ipv6_addr`: read the head groups; a full 8 groups is a
complete address; otherwise an embedded IPv4 before `::` is rejected, a
literal `::` is required, and the tail groups (at most `8 - head - 1`) are
read, with the gap filled by zero groups. -/
def readIpv6Addr (s : Str) : Option (List Nat × Str) :=
  let h := readGroupsAux 8 0 s
  let head := h.1
  if head.length = 8 then some (head, h.2.2)
  else if h.2.1 then none
  else
    match readGivenChar ':' h.2.2 with
    | none => none
    | some s2 =>
      match readGivenChar ':' s2 with
      | none => none
      | some s3 =>
        let limit := 8 - (head.length + 1)
        let t := readGroupsAux limit 0 s3
        some (head ++ List.replicate (8 - head.length - t.1.length) 0 ++ t.1, t.2.2)

/-- Result of Rust `IpAddr::from_str`: a parsed IPv4 or IPv6 address. -/
inductive IpAddrParsed : Type
  | V4 (a b c d : Nat)
  | V6 (groups : List Nat)
deriving DecidableEq

/-- Rust `Parser::read_ip_addr`: try IPv4 first, then IPv6. -/
def readIpAddr (s : Str) : Option (IpAddrParsed × Str) :=
  match readIpv4Addr s with
  | some ((a, b, c, d), rest) => some (.V4 a b c d, rest)
  | none =>
    match readIpv6Addr s with
    | some (gs, rest) => some (.V6 gs, rest)
    | none => none

/-- Rust `IpAddr::from_str` (`parse_with`): the reader must consume the whole
input. -/
def ipAddrFromStr (s : Str) : Option IpAddrParsed :=
  match readIpAddr s with
  | some (a, []) => some a
  | _ => none

/-- `src/ip_utils.rs` `validate_and_classify_ip`: delegate to the platform's
address parser and classify by family. -/
def validate_and_classify_ip (ip_str : Str) : Except Str IpType :=
  match ipAddrFromStr ip_str with
  | some (.V4 _ _ _ _) => .ok .V4
  | some (.V6 _) => .ok .V6
  | none => .error ("Invalid IP address: ".data ++ ip_str)

/-!
Provider and transport model.
-/

/-- Stands for `reqwest::Error`: a transport-level failure (request send or
JSON decode). -/
structure ReqwestError : Type where
  message : Str
deriving DecidableEq

/-- `src/credentials.rs`: the `Credentials` struct. -/
structure Credentials : Type where
  api_key : Str
  secret_key : Str
deriving DecidableEq

/-- `src/credentials.rs` `Credentials::new`. -/
def Credentials.new (api_key : Str) (secret_key : Str) : Credentials :=
  { api_key := api_key, secret_key := secret_key }

/-- `src/api.rs`: the `DnsRecord` struct as deserialized from the provider.
The source names the `type` field `_record_type` because it is never read;
it is kept here as `record_type_field`. -/
structure DnsRecord : Type where
  id : Str
  name : Str
  record_type_field : Str
  content : Str
deriving DecidableEq

/-- `src/api.rs`: the `ExistingRecordsResponse` struct. -/
structure ExistingRecordsResponse : Type where
  status : Str
  records : Option (List DnsRecord)
deriving DecidableEq

/-- `src/api.rs`: the `CreateDnsRecordResponse` struct. -/
structure CreateDnsRecordResponse : Type where
  status : Str
  id : Nat
deriving DecidableEq

/-- `src/api.rs`: the `EditDnsRecordResponse` struct. -/
structure EditDnsRecordResponse : Type where
  status : Str
deriving DecidableEq

/-- `src/api.rs`: the `CreateUpdateDnsRecordRequest` body sent on create and
edit calls. -/
structure CreateUpdateDnsRecordRequest : Type where
  apikey : Str
  secret_api_key : Str
  name : Str
  record_type : Str
  content : Str
  ttl : Nat
deriving DecidableEq

/-- `src/api.rs` `CreateUpdateDnsRecordRequest::new` (DEFAULT_TTL = 600). -/
def CreateUpdateDnsRecordRequest.new (credentials : Credentials) (subdomain : Str)
    (ip : Str) (record_type : RecordType) : CreateUpdateDnsRecordRequest :=
  { apikey := credentials.api_key
  , secret_api_key := credentials.secret_key
  , name := subdomain
  , record_type := record_type.as_str
  , content := ip
  , ttl := 600 }

/-- One HTTP call issued to the porkbun API, with the URL path pieces and the
request body the source sends. -/
inductive ApiCall : Type
  | retrieve (domain_name : Str) (record_type : Str) (subdomain : Str)
      (credentials : Credentials)
  | create (domain_name : Str) (body : CreateUpdateDnsRecordRequest)
  | edit (domain_name : Str) (record_id : Str) (body : CreateUpdateDnsRecordRequest)
deriving DecidableEq

/-- A call is a mutation when it creates or edits a record (anything but the
`retrieveByNameType` lookup). -/
def ApiCall.isMutation : ApiCall → Bool
  | .retrieve .. => false
  | .create .. => true
  | .edit .. => true

/-- Oracle for the external DNS provider: for each endpoint, what the
combination of transport and provider returns.  A `.error` is a
transport-level failure (`reqwest::Error`), an `.ok` is a decoded response
body (whose `status` field carries the provider-reported status). -/
structure Provider : Type where
  retrieveByNameType : Str → Str → Str → Credentials →
    Except ReqwestError ExistingRecordsResponse
  createRecord : Str → CreateUpdateDnsRecordRequest →
    Except ReqwestError CreateDnsRecordResponse
  editRecord : Str → Str → CreateUpdateDnsRecordRequest →
    Except ReqwestError EditDnsRecordResponse

/-- `src/api.rs` `get_existing_dns_record`: one `retrieveByNameType` call; on
transport failure the error propagates; on a decoded response, only when the
provider-reported status is `SUCCESS` and a records list is present is the
list scanned for the first record whose `name` equals the qualified name
(the record's own type field is not consulted); every other case falls
through to `Ok(None)`. -/
def get_existing_dns_record (p : Provider) (credentials : Credentials)
    (domain : Domain) (record_type : RecordType) :
    Except ReqwestError (Option DnsRecord) × List ApiCall :=
  let call := ApiCall.retrieve domain.domain_name record_type.as_str
    domain.subdomain credentials
  match p.retrieveByNameType domain.domain_name record_type.as_str
      domain.subdomain credentials with
  | .error e => (.error e, [call])
  | .ok response =>
    ( if response.status = "SUCCESS".data then
        match response.records with
        | some records =>
          match records.find? (fun record => record.name == domain.qualified_name) with
          | some record => .ok (some record)
          | none => .ok none
        | none => .ok none
      else .ok none
    , [call])

/-- `src/api.rs` `update_dns_record`: one edit call; transport failures
propagate; the decoded response's status is only logged in the source
(`info!` on SUCCESS, `error!` otherwise) and the function returns `Ok(())`
in both cases. -/
def update_dns_record (p : Provider) (credentials : Credentials) (domain : Domain)
    (record_id : Str) (ip : Str) (record_type : RecordType) :
    Except ReqwestError Unit × List ApiCall :=
  let request_body := CreateUpdateDnsRecordRequest.new credentials
    domain.subdomain ip record_type
  let call := ApiCall.edit domain.domain_name record_id request_body
  match p.editRecord domain.domain_name record_id request_body with
  | .error e => (.error e, [call])
  | .ok _edit_response => (.ok (), [call])

/-- `src/api.rs` `create_dns_record`: one create call; transport failures
propagate; the decoded response's status is only logged in the source and
the function returns `Ok(())` in both cases. -/
def create_dns_record (p : Provider) (credentials : Credentials) (domain : Domain)
    (ip : Str) (record_type : RecordType) :
    Except ReqwestError Unit × List ApiCall :=
  let request_body := CreateUpdateDnsRecordRequest.new credentials
    domain.subdomain ip record_type
  let call := ApiCall.create domain.domain_name request_body
  match p.createRecord domain.domain_name request_body with
  | .error e => (.error e, [call])
  | .ok _create_response => (.ok (), [call])

/-!
HTTP handler model (`src/http_handler.rs`).
-/

/-- Rust `impl Debug for str` escaping (as produced by `{:?}` in a format
string), for the escape cases relevant to the character data handled here:
quote, backslash, newline, carriage return, tab and NUL. -/
def escapeDebugChar (c : Char) : Str :=
  if c = '"' then ['\\', '"']
  else if c = '\\' then ['\\', '\\']
  else if c = '\n' then ['\\', 'n']
  else if c = '\r' then ['\\', 'r']
  else if c = '\t' then ['\\', 't']
  else if c = Char.ofNat 0 then ['\\', '0']
  else [c]

/-- A string rendered by `{:?}`: surrounding quotes plus escaping. -/
def debugStr (s : Str) : Str := '"' :: s.flatMap escapeDebugChar ++ ['"']

/-- serde_json string escaping: quote, backslash, the short control escapes,
and `\u00XX` (lowercase hex) for the remaining control characters. -/
def jsonEscapeChar (c : Char) : Str :=
  if c = '"' then ['\\', '"']
  else if c = '\\' then ['\\', '\\']
  else if c = '\x08' then ['\\', 'b']
  else if c = '\x0c' then ['\\', 'f']
  else if c = '\n' then ['\\', 'n']
  else if c = '\r' then ['\\', 'r']
  else if c = '\t' then ['\\', 't']
  else if c.toNat < 32 then
    ['\\', 'u', '0', '0',
      (if c.toNat / 16 < 10 then Char.ofNat ('0'.toNat + c.toNat / 16)
       else Char.ofNat ('a'.toNat + c.toNat / 16 - 10)),
      (if c.toNat % 16 < 10 then Char.ofNat ('0'.toNat + c.toNat % 16)
       else Char.ofNat ('a'.toNat + c.toNat % 16 - 10))]
  else [c]

/-- A JSON string literal as serialized by serde_json. -/
def jsonString (s : Str) : Str := '"' :: s.flatMap jsonEscapeChar ++ ['"']

/-- An HTTP response of the handler: status code plus body text. -/
structure HttpResponse : Type where
  statusCode : Nat
  body : Str
deriving DecidableEq

/-- `src/http_handler.rs` `json_response`: the body is the compact
serialization of the JSON object with single field `message`. -/
def json_response (status_code : Nat) (message : Str) : HttpResponse :=
  { statusCode := status_code
  , body := '\x7b' :: "\"message\":".data ++ jsonString message ++ ['\x7d'] }

/-- The query parameters of a request, as accessed by `query_params.first`. -/
structure Request : Type where
  apikey : Option Str
  secretapikey : Option Str
  domain : Option Str
  ip : Option Str
  ipv6 : Option Str
deriving DecidableEq

/-- `src/http_handler.rs`: the `IpUpdate` struct. -/
structure IpUpdate : Type where
  address : Str
  record_type : RecordType
deriving DecidableEq

/-- `src/http_handler.rs` `IpUpdate::new`. -/
def IpUpdate.new (address : Str) (ip_type : IpType) : IpUpdate :=
  { address := address, record_type := RecordType.fromIp ip_type }

/-- `src/http_handler.rs` `function_handler`, lines 51–67: processing of the
`ip` query parameter.  A present value must classify as IPv4; an IPv6 value
or an unparseable value short-circuits the handler with a 400 response. -/
def processIpParam (param : Option Str) : Except HttpResponse (Option IpUpdate) :=
  match param with
  | some ip_str =>
    match validate_and_classify_ip ip_str with
    | .ok .V4 => .ok (some (IpUpdate.new ip_str .V4))
    | .ok .V6 =>
      .error (json_response 400
        "IPv6 address provided in 'ip' parameter, use 'ipv6' parameter instead".data)
    | .error e =>
      .error (json_response 400 ("Invalid IPv4 address: ".data ++ e))
  | none => .ok none

/-- `src/http_handler.rs` `function_handler`, lines 70–86: processing of the
`ipv6` query parameter, symmetric to the `ip` parameter. -/
def processIpv6Param (param : Option Str) : Except HttpResponse (Option IpUpdate) :=
  match param with
  | some ip_str =>
    match validate_and_classify_ip ip_str with
    | .ok .V6 => .ok (some (IpUpdate.new ip_str .V6))
    | .ok .V4 =>
      .error (json_response 400
        "IPv4 address provided in 'ipv6' parameter, use 'ip' parameter instead".data)
    | .error e =>
      .error (json_response 400 ("Invalid IPv6 address: ".data ++ e))
  | none => .ok none

/-- `src/http_handler.rs` `process_dns_record`: resolve the existing record,
then no-op / update / create accordingly; transport errors propagate. -/
def process_dns_record (p : Provider) (credentials : Credentials) (domain : Domain)
    (ip : Str) (record_type : RecordType) :
    Except ReqwestError Str × List ApiCall :=
  let g := get_existing_dns_record p credentials domain record_type
  match g.1 with
  | .ok (some record) =>
    if record.content == ip then
      ( .ok (record_type.as_str ++ " record ".data ++ debugStr record.name ++
          " is already up to date".data)
      , g.2)
    else
      let u := update_dns_record p credentials domain record.id ip record_type
      match u.1 with
      | .error e => (.error e, g.2 ++ u.2)
      | .ok _ =>
        ( .ok (record_type.as_str ++ " record '".data ++ debugStr record.name ++
            "' updated successfully".data)
        , g.2 ++ u.2)
  | .ok none =>
    let c := create_dns_record p credentials domain ip record_type
    match c.1 with
    | .error e => (.error e, g.2 ++ c.2)
    | .ok _ =>
      ( .ok (record_type.as_str ++ " record for subdomain '".data ++
          debugStr domain.subdomain ++ "' successfully created".data)
      , g.2 ++ c.2)
  | .error e => (.error e, g.2)

/-- `src/http_handler.rs` `function_handler`, lines 119–151: the per-address
loop.  Returns the outcome messages in processing order, or — on the first
failing address — its record type; either way the provider calls made so
far are accumulated. -/
def processIpUpdates (p : Provider) (credentials : Credentials) (domain : Domain) :
    List IpUpdate → Except (RecordType × List ApiCall) (List Str × List ApiCall)
  | [] => .ok ([], [])
  | ip_update :: rest =>
    let r := process_dns_record p credentials domain ip_update.address
      ip_update.record_type
    match r.1 with
    | .error _ => .error (ip_update.record_type, r.2)
    | .ok message =>
      match processIpUpdates p credentials domain rest with
      | .ok (results, calls) => .ok (message :: results, r.2 ++ calls)
      | .error (rt, calls) => .error (rt, r.2 ++ calls)

/-- `src/http_handler.rs` `function_handler`: parameter extraction and
validation in source order (apikey, secretapikey, domain, ip, ipv6,
at-least-one-address, domain shape), then the per-address loop; 500 with a
generic message on the first failing address, otherwise 200 with the
outcome messages joined by `"; "`. -/
def function_handler (p : Provider) (event : Request) :
    HttpResponse × List ApiCall :=
  match event.apikey with
  | none => (json_response 400 "Missing query-parameter 'apikey'".data, [])
  | some api_key =>
  match event.secretapikey with
  | none => (json_response 400 "Missing query-parameter 'secretapikey'".data, [])
  | some secret_key =>
  match event.domain with
  | none => (json_response 400 "Missing query-parameter 'domain'".data, [])
  | some qualified_domain_name =>
  match processIpParam event.ip with
  | .error resp => (resp, [])
  | .ok ipv4 =>
  match processIpv6Param event.ipv6 with
  | .error resp => (resp, [])
  | .ok ipv6 =>
  if ipv4.isNone && ipv6.isNone then
    (json_response 400 "At least one IP address must be provided (ip or ipv6)".data, [])
  else
    let ip_updates := [ipv4, ipv6].filterMap id
    match Domain.new qualified_domain_name with
    | .error _ => (json_response 400 "Invalid subdomain format".data, [])
    | .ok domain =>
      let credentials := Credentials.new api_key secret_key
      match processIpUpdates p credentials domain ip_updates with
      | .error (rt, calls) =>
        (json_response 500 ("Failed to process ".data ++ rt.as_str ++ " record".data), calls)
      | .ok (results, calls) =>
        (json_response 200 (List.intercalate "; ".data results), calls)

/-!
Helper predicates used by the theorem statements.
-/

/-- Whether `pat` is a prefix of `s`. -/
def isPrefixList (pat s : Str) : Bool :=
  match pat, s with
  | [], _ => true
  | _ :: _, [] => false
  | a :: ps, b :: t => a == b && isPrefixList ps t

/-- Whether `pat` occurs contiguously inside `s` ("the message contains"). -/
def isSubstringOf (pat s : Str) : Bool :=
  match s with
  | [] => pat.isEmpty
  | _ :: tail => isPrefixList pat s || isSubstringOf pat tail

/-!
Concrete fixtures used by counterexamples and witnesses.
-/

/-- Concrete credentials (the values the repository's own tests use). -/
def creds0 : Credentials := Credentials.new "porkDyn".data "secret".data

/-- The domain `api.example.com` as produced by `Domain::new`. -/
def domain0 : Domain :=
  { domain_name := "example.com".data
  , subdomain := "api".data
  , qualified_name := "api.example.com".data }

/-- An existing A record for `api.example.com` with content `1.1.1.1`. -/
def recordA0 : DnsRecord :=
  { id := "42".data
  , name := "api.example.com".data
  , record_type_field := "A".data
  , content := "1.1.1.1".data }

/-- An AAAA record whose name matches `api.example.com`. -/
def recordAAAA0 : DnsRecord :=
  { id := "7".data
  , name := "api.example.com".data
  , record_type_field := "AAAA".data
  , content := "2001:db8::1".data }

/-- Provider whose lookup fails at the transport level. -/
def providerTransportFail : Provider :=
  { retrieveByNameType := fun _ _ _ _ => .error { message := "connection reset".data }
  , createRecord := fun _ _ => .ok { status := "SUCCESS".data, id := 1 }
  , editRecord := fun _ _ _ => .ok { status := "SUCCESS".data } }

/-- Provider whose lookup responds with non-success status `ERROR`, while the
create and edit endpoints succeed. -/
def providerLookupStatusError : Provider :=
  { retrieveByNameType := fun _ _ _ _ => .ok { status := "ERROR".data, records := none }
  , createRecord := fun _ _ => .ok { status := "SUCCESS".data, id := 1 }
  , editRecord := fun _ _ _ => .ok { status := "SUCCESS".data } }

/-- Provider whose lookup succeeds with no records and whose create endpoint
responds with non-success status `ERROR` (transport fine). -/
def providerCreateStatusError : Provider :=
  { retrieveByNameType := fun _ _ _ _ => .ok { status := "SUCCESS".data, records := some [] }
  , createRecord := fun _ _ => .ok { status := "ERROR".data, id := 0 }
  , editRecord := fun _ _ _ => .ok { status := "ERROR".data } }

/-- Provider whose lookup returns (only) an AAAA record named
`api.example.com`. -/
def providerWrongKind : Provider :=
  { retrieveByNameType := fun _ _ _ _ =>
      .ok { status := "SUCCESS".data, records := some [recordAAAA0] }
  , createRecord := fun _ _ => .ok { status := "SUCCESS".data, id := 1 }
  , editRecord := fun _ _ _ => .ok { status := "SUCCESS".data } }

/-- Provider whose lookup succeeds with no records and whose create and edit
endpoints succeed. -/
def providerHappy : Provider :=
  { retrieveByNameType := fun _ _ _ _ => .ok { status := "SUCCESS".data, records := some [] }
  , createRecord := fun _ _ => .ok { status := "SUCCESS".data, id := 1 }
  , editRecord := fun _ _ _ => .ok { status := "SUCCESS".data } }

/-- A fully populated request: both an IPv4 and an IPv6 address. -/
def requestBoth : Request :=
  { apikey := some "porkDyn".data
  , secretapikey := some "secret".data
  , domain := some "api.example.com".data
  , ip := some "192.168.1.1".data
  , ipv6 := some "2001:db8::1".data }

/-- A request carrying only an IPv4 address. -/
def requestV4 : Request :=
  { apikey := some "porkDyn".data
  , secretapikey := some "secret".data
  , domain := some "api.example.com".data
  , ip := some "1.2.3.4".data
  , ipv6 := none }

/-!
C1 — lookup error handling.
-/

/-- C1 (counterexample): the claim says a provider-reported non-success
status on lookup yields a `ProviderError` and never leads to Create.  In
the code, a lookup response with status `ERROR` produces `Ok(None)` — an
`Ok` value — and the reconciler then proceeds to create the record,
returning a success message. -/
theorem c1_counterexample :
    (get_existing_dns_record providerLookupStatusError creds0 domain0 .A).1 = .ok none ∧
    (process_dns_record providerLookupStatusError creds0 domain0 "1.2.3.4".data .A).1 =
      .ok "A record for subdomain '\"api\"' successfully created".data ∧
    ApiCall.create domain0.domain_name
        (CreateUpdateDnsRecordRequest.new creds0 "api".data "1.2.3.4".data .A) ∈
      (process_dns_record providerLookupStatusError creds0 domain0 "1.2.3.4".data .A).2 := by
  refine ⟨by decide, by decide, by decide⟩

/-- C1 (amended): a transport failure on lookup propagates as an error, but a
provider-reported non-success status is not an error: the resolver returns
`Ok(None)` (so the reconciler treats it as "no existing record"). -/
theorem c1_spec (p : Provider) (credentials : Credentials) (domain : Domain)
    (record_type : RecordType) :
    (∀ e, p.retrieveByNameType domain.domain_name record_type.as_str
        domain.subdomain credentials = .error e →
      (get_existing_dns_record p credentials domain record_type).1 = .error e) ∧
    (∀ response, p.retrieveByNameType domain.domain_name record_type.as_str
        domain.subdomain credentials = .ok response →
      response.status ≠ "SUCCESS".data →
      (get_existing_dns_record p credentials domain record_type).1 = .ok none) := by
  constructor
  · intro e h
    simp [get_existing_dns_record, h]
  · intro response h hs
    simp [get_existing_dns_record, h, hs]

/-- Witness for C1 at concrete providers: a transport failure and a
status-`ERROR` lookup. -/
theorem c1_witness :
    (get_existing_dns_record providerTransportFail creds0 domain0 .A).1 =
      .error { message := "connection reset".data } ∧
    (get_existing_dns_record providerLookupStatusError creds0 domain0 .A).1 = .ok none :=
  ⟨(c1_spec providerTransportFail creds0 domain0 .A).1 _ rfl,
   (c1_spec providerLookupStatusError creds0 domain0 .A).2 _ rfl (by decide)⟩

/-!
C2 — create/update error handling.
-/

/-- C2 (counterexample): the claim says a non-success provider status on
create fails the per-address step and surfaces a 5xx.  In the code, the
create endpoint answering with status `ERROR` (transport fine) still yields
an overall 200 response with a success message for that address. -/
theorem c2_counterexample :
    providerCreateStatusError.createRecord domain0.domain_name
        (CreateUpdateDnsRecordRequest.new creds0 "api".data "1.2.3.4".data .A) =
      .ok { status := "ERROR".data, id := 0 } ∧
    (function_handler providerCreateStatusError requestV4).1 =
      json_response 200 "A record for subdomain '\"api\"' successfully created".data := by
  refine ⟨by decide, by decide⟩

/-- C2 (amended): only transport-level failures fail a create or update call;
when the transport succeeds, `create_dns_record` and `update_dns_record`
return `Ok(())` regardless of the provider-reported status (which is only
logged), so the per-address step still produces its success message. -/
theorem c2_spec (p : Provider) (credentials : Credentials) (domain : Domain)
    (record_id ip : Str) (record_type : RecordType) :
    (∀ response, p.createRecord domain.domain_name
        (CreateUpdateDnsRecordRequest.new credentials domain.subdomain ip record_type) =
          .ok response →
      (create_dns_record p credentials domain ip record_type).1 = .ok ()) ∧
    (∀ e, p.createRecord domain.domain_name
        (CreateUpdateDnsRecordRequest.new credentials domain.subdomain ip record_type) =
          .error e →
      (create_dns_record p credentials domain ip record_type).1 = .error e) ∧
    (∀ response, p.editRecord domain.domain_name record_id
        (CreateUpdateDnsRecordRequest.new credentials domain.subdomain ip record_type) =
          .ok response →
      (update_dns_record p credentials domain record_id ip record_type).1 = .ok ()) ∧
    (∀ e, p.editRecord domain.domain_name record_id
        (CreateUpdateDnsRecordRequest.new credentials domain.subdomain ip record_type) =
          .error e →
      (update_dns_record p credentials domain record_id ip record_type).1 = .error e) := by
  refine ⟨fun response h => ?_, fun e h => ?_, fun response h => ?_, fun e h => ?_⟩ <;>
    simp [create_dns_record, update_dns_record, h]

/-- Witness for C2: the create endpoint reports status `ERROR` yet the call
returns `Ok(())`. -/
theorem c2_witness :
    (create_dns_record providerCreateStatusError creds0 domain0 "1.2.3.4".data .A).1 =
      .ok () :=
  (c2_spec providerCreateStatusError creds0 domain0 "42".data "1.2.3.4".data .A).1
    _ rfl

/-!
C3 — record matching rule.
-/

/-- C3 (counterexample): the claim says a record whose name matches but whose
kind differs from the requested kind is never selected.  In the code the
record's kind field is never consulted: requesting an A record while the
provider returns an AAAA record named `api.example.com` selects that
record. -/
theorem c3_counterexample :
    recordAAAA0.record_type_field ≠ RecordType.A.as_str ∧
    (get_existing_dns_record providerWrongKind creds0 domain0 .A).1 =
      .ok (some recordAAAA0) := by
  refine ⟨by decide, by decide⟩

/-- C3 (amended): on a SUCCESS lookup response carrying a records list, the
resolver returns the first record whose reported name equals the fully
qualified name, with no check of the record's kind (kind filtering is
delegated to the provider query); when no record's name matches, the result
is `Ok(None)`, not an error. -/
theorem c3_spec (p : Provider) (credentials : Credentials) (domain : Domain)
    (record_type : RecordType) (response : ExistingRecordsResponse)
    (records : List DnsRecord) :
    p.retrieveByNameType domain.domain_name record_type.as_str
        domain.subdomain credentials = .ok response →
    response.status = "SUCCESS".data →
    response.records = some records →
    (get_existing_dns_record p credentials domain record_type).1 =
      .ok (records.find? (fun record => record.name == domain.qualified_name)) := by
  intro h hs hr
  simp only [get_existing_dns_record, h, hs, hr, if_true]
  cases records.find? (fun record => record.name == domain.qualified_name) <;> simp

/-- Witness for C3: the AAAA record named `api.example.com` is what `find?`
selects and what the resolver returns on an A lookup. -/
theorem c3_witness :
    (get_existing_dns_record providerWrongKind creds0 domain0 .A).1 =
      .ok ([recordAAAA0].find? (fun record => record.name == domain0.qualified_name)) :=
  c3_spec providerWrongKind creds0 domain0 .A
    { status := "SUCCESS".data, records := some [recordAAAA0] } [recordAAAA0]
    rfl (by decide) rfl

/-!
Small helper lemmas about traces and substrings.
-/

/-- The lookup issues exactly one `retrieveByNameType` call. -/
theorem get_existing_dns_record_trace (p : Provider) (credentials : Credentials)
    (domain : Domain) (record_type : RecordType) :
    (get_existing_dns_record p credentials domain record_type).2 =
      [ApiCall.retrieve domain.domain_name record_type.as_str domain.subdomain
        credentials] := by
  simp only [get_existing_dns_record]
  cases p.retrieveByNameType domain.domain_name record_type.as_str
    domain.subdomain credentials <;> rfl

/-- The update issues exactly one `edit` call. -/
theorem update_dns_record_trace (p : Provider) (credentials : Credentials)
    (domain : Domain) (record_id ip : Str) (record_type : RecordType) :
    (update_dns_record p credentials domain record_id ip record_type).2 =
      [ApiCall.edit domain.domain_name record_id
        (CreateUpdateDnsRecordRequest.new credentials domain.subdomain ip record_type)] := by
  simp only [update_dns_record]
  cases p.editRecord domain.domain_name record_id
    (CreateUpdateDnsRecordRequest.new credentials domain.subdomain ip record_type) <;> rfl

/-- The create issues exactly one `create` call. -/
theorem create_dns_record_trace (p : Provider) (credentials : Credentials)
    (domain : Domain) (ip : Str) (record_type : RecordType) :
    (create_dns_record p credentials domain ip record_type).2 =
      [ApiCall.create domain.domain_name
        (CreateUpdateDnsRecordRequest.new credentials domain.subdomain ip record_type)] := by
  simp only [create_dns_record]
  cases p.createRecord domain.domain_name
    (CreateUpdateDnsRecordRequest.new credentials domain.subdomain ip record_type) <;> rfl

theorem isPrefixList_self_append (pat b : Str) : isPrefixList pat (pat ++ b) = true := by
  induction pat with
  | nil => rfl
  | cons c cs ih => simp [isPrefixList, ih]

theorem isSubstringOf_self_append (pat b : Str) : isSubstringOf pat (pat ++ b) = true := by
  cases pat with
  | nil =>
    cases b with
    | nil => rfl
    | cons x xs => simp [isSubstringOf, isPrefixList]
  | cons c cs =>
    simp only [List.cons_append, isSubstringOf, Bool.or_eq_true]
    exact Or.inl (isPrefixList_self_append (c :: cs) b)

/-- A substring of `s` is a substring of `a ++ s`. -/
theorem isSubstringOf_append_left (pat a s : Str) (h : isSubstringOf pat s = true) :
    isSubstringOf pat (a ++ s) = true := by
  induction a with
  | nil => simpa using h
  | cons c cs ih =>
    simp only [List.cons_append, isSubstringOf, Bool.or_eq_true]
    exact Or.inr ih

/-!
C4 — the reconciliation decision table.
-/

/-- C4 (confirmed): the reconciliation decision is exactly the table of the
spec.  No existing record ⇒ a create call is made for the desired address
and (when the call goes through) the message contains "successfully
created"; an existing record with equal content ⇒ no create/update call is
made and the message contains "already up to date"; an existing record
with different content ⇒ an edit call for that record's id with the
desired address, with message containing "updated successfully". -/
theorem c4_spec (p : Provider) (credentials : Credentials) (domain : Domain)
    (ip : Str) (record_type : RecordType) :
    (∀ record,
      (get_existing_dns_record p credentials domain record_type).1 = .ok (some record) →
      record.content = ip →
      process_dns_record p credentials domain ip record_type =
        (.ok (record_type.as_str ++ " record ".data ++ debugStr record.name ++
            " is already up to date".data),
          (get_existing_dns_record p credentials domain record_type).2) ∧
      (∀ call ∈ (process_dns_record p credentials domain ip record_type).2,
        call.isMutation = false) ∧
      isSubstringOf "already up to date".data
        (record_type.as_str ++ " record ".data ++ debugStr record.name ++
          " is already up to date".data) = true) ∧
    (∀ record,
      (get_existing_dns_record p credentials domain record_type).1 = .ok (some record) →
      record.content ≠ ip →
      (process_dns_record p credentials domain ip record_type).2 =
        (get_existing_dns_record p credentials domain record_type).2 ++
          [ApiCall.edit domain.domain_name record.id
            (CreateUpdateDnsRecordRequest.new credentials domain.subdomain ip record_type)] ∧
      (∀ response,
        p.editRecord domain.domain_name record.id
            (CreateUpdateDnsRecordRequest.new credentials domain.subdomain ip record_type) =
          .ok response →
        (process_dns_record p credentials domain ip record_type).1 =
          .ok (record_type.as_str ++ " record '".data ++ debugStr record.name ++
            "' updated successfully".data)) ∧
      isSubstringOf "updated successfully".data
        (record_type.as_str ++ " record '".data ++ debugStr record.name ++
          "' updated successfully".data) = true) ∧
    ((get_existing_dns_record p credentials domain record_type).1 = .ok none →
      (process_dns_record p credentials domain ip record_type).2 =
        (get_existing_dns_record p credentials domain record_type).2 ++
          [ApiCall.create domain.domain_name
            (CreateUpdateDnsRecordRequest.new credentials domain.subdomain ip record_type)] ∧
      (∀ response,
        p.createRecord domain.domain_name
            (CreateUpdateDnsRecordRequest.new credentials domain.subdomain ip record_type) =
          .ok response →
        (process_dns_record p credentials domain ip record_type).1 =
          .ok (record_type.as_str ++ " record for subdomain '".data ++
            debugStr domain.subdomain ++ "' successfully created".data)) ∧
      isSubstringOf "successfully created".data
        (record_type.as_str ++ " record for subdomain '".data ++
          debugStr domain.subdomain ++ "' successfully created".data) = true) := by
  refine ⟨fun record h hc => ⟨?_, ?_, ?_⟩, fun record h hc => ⟨?_, ?_, ?_⟩,
    fun h => ⟨?_, ?_, ?_⟩⟩
  · simp [process_dns_record, h, hc]
  · intro call hcall
    simp only [process_dns_record, h] at hcall
    rw [if_pos (by simp [hc])] at hcall
    rw [get_existing_dns_record_trace] at hcall
    simp at hcall
    simp [hcall, ApiCall.isMutation]
  · rw [show record_type.as_str ++ " record ".data ++ debugStr record.name ++
        " is already up to date".data =
      (record_type.as_str ++ " record ".data ++ debugStr record.name) ++
        (" is ".data ++ "already up to date".data) by simp]
    exact isSubstringOf_append_left _ _ _ (isSubstringOf_self_append _ _)
  · simp only [process_dns_record, h]
    rw [if_neg (by simp [hc])]
    rw [update_dns_record_trace]
    cases hu : (update_dns_record p credentials domain record.id ip record_type).1 <;>
      simp [update_dns_record_trace]
  · intro response hresp
    simp only [process_dns_record, h]
    rw [if_neg (by simp [hc])]
    have hu : (update_dns_record p credentials domain record.id ip record_type).1 =
        .ok () := by
      simp [update_dns_record, hresp]
    rw [hu]
  · rw [show record_type.as_str ++ " record '".data ++ debugStr record.name ++
        "' updated successfully".data =
      (record_type.as_str ++ " record '".data ++ debugStr record.name ++ "' ".data) ++
        ("updated successfully".data) by simp]
    exact isSubstringOf_append_left _ _ _ (isSubstringOf_self_append _ [])
  · simp only [process_dns_record, h]
    rw [create_dns_record_trace]
    cases hcr : (create_dns_record p credentials domain ip record_type).1 <;>
      simp [create_dns_record_trace]
  · intro response hresp
    simp only [process_dns_record, h]
    have hcr : (create_dns_record p credentials domain ip record_type).1 = .ok () := by
      simp [create_dns_record, hresp]
    rw [hcr]
  · rw [show record_type.as_str ++ " record for subdomain '".data ++
        debugStr domain.subdomain ++ "' successfully created".data =
      (record_type.as_str ++ " record for subdomain '".data ++
        debugStr domain.subdomain ++ "' ".data) ++ ("successfully created".data) by simp]
    exact isSubstringOf_append_left _ _ _ (isSubstringOf_self_append _ [])

/-- Witness for C4: the three rows of the decision table at concrete
fixtures — no-op on equal content, update on different content, create on
no record. -/
theorem c4_witness :
    process_dns_record providerWrongKind creds0 domain0 "2001:db8::1".data .AAAA =
      (.ok ("AAAA".data ++ " record ".data ++ debugStr recordAAAA0.name ++
          " is already up to date".data),
        (get_existing_dns_record providerWrongKind creds0 domain0 .AAAA).2) ∧
    (process_dns_record providerWrongKind creds0 domain0 "2001:db8::2".data .AAAA).1 =
      .ok ("AAAA".data ++ " record '".data ++ debugStr recordAAAA0.name ++
        "' updated successfully".data) ∧
    (process_dns_record providerHappy creds0 domain0 "1.2.3.4".data .A).1 =
      .ok ("A".data ++ " record for subdomain '".data ++ debugStr domain0.subdomain ++
        "' successfully created".data) := by
  refine ⟨((c4_spec providerWrongKind creds0 domain0 "2001:db8::1".data .AAAA).1
      recordAAAA0 (by decide) (by decide)).1,
    (((c4_spec providerWrongKind creds0 domain0 "2001:db8::2".data .AAAA).2.1
      recordAAAA0 (by decide) (by decide)).2.1 _ rfl),
    (((c4_spec providerHappy creds0 domain0 "1.2.3.4".data .A).2.2
      (by decide)).2.1 _ rfl)⟩

/-!
C7 — address classification.
-/

/-- C7 (confirmed): whatever the platform address parser returns determines
classification — an IPv4 parse yields IPv4 (record kind A), an IPv6 parse
yields IPv6 (record kind AAAA), a failed parse yields the validation error
with the raw address; and the zone-id-suffixed literal `fe80::1%lo0` does
not parse. -/
theorem c7_spec (s : Str) :
    (∀ a b c d, ipAddrFromStr s = some (.V4 a b c d) →
      validate_and_classify_ip s = .ok .V4) ∧
    (∀ groups, ipAddrFromStr s = some (.V6 groups) →
      validate_and_classify_ip s = .ok .V6) ∧
    (ipAddrFromStr s = none →
      validate_and_classify_ip s = .error ("Invalid IP address: ".data ++ s)) ∧
    RecordType.fromIp .V4 = .A ∧ RecordType.fromIp .V6 = .AAAA ∧
    ipAddrFromStr "fe80::1%lo0".data = none := by
  refine ⟨fun a b c d h => ?_, fun groups h => ?_, fun h => ?_, rfl, rfl, by decide⟩ <;>
    simp [validate_and_classify_ip, h]

/-- Witness for C7 at the repository's own test vectors. -/
theorem c7_witness :
    validate_and_classify_ip "192.168.1.1".data = .ok .V4 ∧
    validate_and_classify_ip "2001:db8::1".data = .ok .V6 ∧
    validate_and_classify_ip "fe80::1%lo0".data =
      .error ("Invalid IP address: ".data ++ "fe80::1%lo0".data) :=
  ⟨(c7_spec "192.168.1.1".data).1 192 168 1 1 (by decide),
   (c7_spec "2001:db8::1".data).2.1 [8193, 3512, 0, 0, 0, 0, 0, 1] (by decide),
   (c7_spec "fe80::1%lo0".data).2.2.1 (by decide)⟩

/-!
Lemmas about `List.splitOn` / `List.intercalate`, for C6 and C10.
-/

theorem splitOn_dot_ne_nil (s : Str) : s.splitOn '.' ≠ [] := by
  unfold List.splitOn
  exact List.splitOnP_ne_nil _ s

theorem intercalate_cons_of_ne_nil {α : Type} (sep x : List α) (ys : List (List α))
    (h : ys ≠ []) :
    List.intercalate sep (x :: ys) = x ++ sep ++ List.intercalate sep ys := by
  cases ys with
  | nil => exact absurd rfl h
  | cons y t =>
    simp [List.intercalate, List.intersperse_cons_cons, List.append_assoc]

theorem intercalate_singleton_list {α : Type} (sep x : List α) :
    List.intercalate sep [x] = x := by
  simp [List.intercalate]

theorem intercalate_pair {α : Type} (sep x y : List α) :
    List.intercalate sep [x, y] = x ++ sep ++ y := by
  simp [List.intercalate, List.intersperse_cons_cons, List.append_assoc]

theorem intercalate_ne_nil_of_head_ne_nil {α : Type} (sep x : List α)
    (ys : List (List α)) (h : x ≠ []) :
    List.intercalate sep (x :: ys) ≠ [] := by
  cases ys with
  | nil => rw [intercalate_singleton_list]; exact h
  | cons y t =>
    rw [intercalate_cons_of_ne_nil sep x (y :: t) (by simp)]
    simp [List.append_eq_nil]
    intro hx
    exact absurd hx h

/-- Splitting a join at index `k` (with `1 ≤ k < length`) around one more
separator reconstructs the whole join. -/
theorem intercalate_take_drop {α : Type} (sep : List α) (xs : List (List α)) (k : Nat)
    (h1 : 1 ≤ k) (h2 : k < xs.length) :
    List.intercalate sep (xs.take k) ++ sep ++ List.intercalate sep (xs.drop k) =
      List.intercalate sep xs := by
  induction xs generalizing k with
  | nil => simp at h2
  | cons x t ih =>
    obtain ⟨j, rfl⟩ : ∃ j, k = j + 1 := ⟨k - 1, by omega⟩
    have ht : t ≠ [] := by
      intro hnil
      subst hnil
      simp at h2
    rw [List.take_succ_cons, List.drop_succ_cons]
    rcases Nat.eq_zero_or_pos j with hj | hj
    · subst hj
      rw [List.take_zero, List.drop_zero, intercalate_singleton_list,
        intercalate_cons_of_ne_nil sep x t ht]
    · have h2' : j < t.length := by
        simp at h2
        omega
      have htj : t.take j ≠ [] := by
        cases t with
        | nil => exact absurd rfl ht
        | cons y ty =>
          obtain ⟨i, rfl⟩ : ∃ i, j = i + 1 := ⟨j - 1, by omega⟩
          rw [List.take_succ_cons]
          simp
      rw [intercalate_cons_of_ne_nil sep x (t.take j) htj,
        intercalate_cons_of_ne_nil sep x t ht, ← ih j hj h2']
      simp [List.append_assoc]

theorem drop_length_sub_two {α : Type} (d : α) (xs : List α) (h : 2 ≤ xs.length) :
    xs.drop (xs.length - 2) =
      [xs.getD (xs.length - 2) d, xs.getD (xs.length - 1) d] := by
  have h1 : xs.length - 2 < xs.length := by omega
  have h2 : xs.length - 1 < xs.length := by omega
  rw [List.drop_eq_getElem_cons h1, show xs.length - 2 + 1 = xs.length - 1 by omega,
    List.drop_eq_getElem_cons h2, show xs.length - 1 + 1 = xs.length by omega,
    List.drop_length, List.getD_eq_getElem xs d h1, List.getD_eq_getElem xs d h2]

/-!
C6 — the name splitter.
-/

/-- C6 (confirmed): `Domain::new` succeeds iff the input splits on dots into
at least 3 labels all of which are non-empty; on success the zone is the
last two labels joined by a dot and the host is the preceding labels joined
by dots; otherwise it fails with a validation error; and for an input the
splitter rejects, the handler answers 400 without making any provider
call. -/
theorem c6_spec (s : Str) :
    ((∃ d, Domain.new s = .ok d) ↔
      3 ≤ (s.splitOn '.').length ∧ ∀ part ∈ s.splitOn '.', part ≠ []) ∧
    (∀ d, Domain.new s = .ok d →
      d.domain_name = (s.splitOn '.').getD ((s.splitOn '.').length - 2) [] ++
        '.' :: (s.splitOn '.').getD ((s.splitOn '.').length - 1) [] ∧
      d.subdomain =
        List.intercalate ['.'] ((s.splitOn '.').take ((s.splitOn '.').length - 2))) ∧
    (¬(3 ≤ (s.splitOn '.').length ∧ ∀ part ∈ s.splitOn '.', part ≠ []) →
      ∃ msg, Domain.new s = .error (.DomainValidationError msg)) ∧
    (∀ p api_key secret_key ip_str e, Domain.new s = .error e →
      validate_and_classify_ip ip_str = .ok .V4 →
      function_handler p
          { apikey := some api_key, secretapikey := some secret_key,
            domain := some s, ip := some ip_str, ipv6 := none } =
        (json_response 400 "Invalid subdomain format".data, [])) := by
  refine ⟨?_, ?_, ?_, ?_⟩
  · simp only [Domain.new]
    split_ifs with h1 h2
    · refine iff_of_false ?_ ?_
      · rintro ⟨d, hd⟩
        exact hd
      · rintro ⟨h3, _⟩
        omega
    · refine iff_of_false ?_ ?_
      · rintro ⟨d, hd⟩
        exact hd
      · rintro ⟨_, hall⟩
        rw [List.any_eq_true] at h2
        obtain ⟨part, hmem, hempty⟩ := h2
        rw [List.isEmpty_iff] at hempty
        exact hall part hmem hempty
    · refine iff_of_true ⟨_, rfl⟩ ⟨by omega, fun part hmem hempty => ?_⟩
      rw [List.any_eq_true] at h2
      exact h2 ⟨part, hmem, by rw [List.isEmpty_iff]; exact hempty⟩
  · intro d h
    simp only [Domain.new] at h
    split_ifs at h
    injection h with h
    subst h
    exact ⟨rfl, rfl⟩
  · intro h
    simp only [Domain.new]
    split_ifs with h1 h2
    · exact ⟨_, rfl⟩
    · exact ⟨_, rfl⟩
    · refine absurd ⟨by omega, fun part hmem hempty => ?_⟩ h
      rw [List.any_eq_true] at h2
      exact h2 ⟨part, hmem, by rw [List.isEmpty_iff]; exact hempty⟩
  · intro p api_key secret_key ip_str e hdom hip
    simp [function_handler, processIpParam, processIpv6Param, hip, hdom]

/-- Witness for C6: the 2-label name `example.com` is rejected (400, no
provider calls), and `api.example.com` splits into zone `example.com` and
host `api`. -/
theorem c6_witness :
    function_handler providerHappy
        { apikey := some "porkDyn".data, secretapikey := some "secret".data,
          domain := some "example.com".data, ip := some "1.2.3.4".data, ipv6 := none } =
      (json_response 400 "Invalid subdomain format".data, []) ∧
    domain0.domain_name =
      ("example.com".data.splitOn '.').getD (("example.com".data.splitOn '.').length - 2) [] ++
        '.' :: ("example.com".data.splitOn '.').getD
          (("example.com".data.splitOn '.').length - 1) [] ∧
    domain0.subdomain =
      List.intercalate ['.']
        (("api.example.com".data.splitOn '.').take
          (("api.example.com".data.splitOn '.').length - 2)) := by
  refine ⟨(c6_spec "example.com".data).2.2.2 providerHappy "porkDyn".data
      "secret".data "1.2.3.4".data
      (.DomainValidationError
        "Domain must have at least 3 parts (e.g., sub.example.com)".data)
      (by decide) (by decide), by decide,
    ((c6_spec "api.example.com".data).2.1 domain0 (by decide)).2⟩

/-!
C10 — reconstruction invariant of accepted names.
-/

/-- C10 (confirmed): every name the splitter accepts yields a non-empty host,
and host ++ "." ++ zone reconstructs the stored qualified name, which is
the input unchanged; hence the resolver's "zone alone if host is empty"
case is unreachable for accepted names. -/
theorem c10_spec (s : Str) (d : Domain) (h : Domain.new s = .ok d) :
    d.subdomain ≠ [] ∧
    d.subdomain ++ '.' :: d.domain_name = d.qualified_name ∧
    d.qualified_name = s := by
  simp only [Domain.new] at h
  split_ifs at h with h1 h2
  injection h with h
  subst h
  have hlen : 3 ≤ (s.splitOn '.').length := by omega
  have hall : ∀ part ∈ s.splitOn '.', part ≠ [] := by
    intro part hmem hempty
    rw [List.any_eq_true] at h2
    exact h2 ⟨part, hmem, by rw [List.isEmpty_iff]; exact hempty⟩
  refine ⟨?_, ?_, rfl⟩
  · obtain ⟨p0, rest, hsplit⟩ : ∃ p0 rest, s.splitOn '.' = p0 :: rest := by
      cases hsp : s.splitOn '.' with
      | nil => exact absurd hsp (splitOn_dot_ne_nil s)
      | cons p0 rest => exact ⟨p0, rest, rfl⟩
    have hp0 : p0 ≠ [] := hall p0 (by rw [hsplit]; exact List.mem_cons_self p0 rest)
    have htk : (s.splitOn '.').take ((s.splitOn '.').length - 2) =
        p0 :: rest.take ((s.splitOn '.').length - 3) := by
      rw [show (s.splitOn '.').length - 2 = ((s.splitOn '.').length - 3) + 1 by
        omega]
      rw [hsplit, List.take_succ_cons]
    simp only [htk]
    exact intercalate_ne_nil_of_head_ne_nil _ p0 _ hp0
  · have hk := intercalate_take_drop ['.'] (s.splitOn '.')
      ((s.splitOn '.').length - 2) (by omega) (by omega)
    rw [drop_length_sub_two [] (s.splitOn '.') (by omega), intercalate_pair] at hk
    have hrec : List.intercalate ['.'] (s.splitOn '.') = s :=
      List.intercalate_splitOn s '.'
    rw [hrec] at hk
    simpa [List.append_assoc] using hk

/-- Witness for C10 at `api.example.com`. -/
theorem c10_witness :
    domain0.subdomain ≠ [] ∧
    domain0.subdomain ++ '.' :: domain0.domain_name = domain0.qualified_name ∧
    domain0.qualified_name = "api.example.com".data :=
  c10_spec "api.example.com".data domain0 (by decide)

/-!
C5 — sequential processing, IPv4 first, stop at first failure.
-/

/-- C5 (confirmed): with both addresses supplied, the IPv4 address is
processed first; if its step fails the invocation reports failure (500)
and the provider sees only the IPv4-side calls (no outcome for the IPv6
address); only when the IPv4 step succeeds is the IPv6 address processed,
with the overall outcome 500 on its failure or 200 joining both messages. -/
theorem c5_spec (p : Provider) (api_key secret_key q s4 s6 : Str) (d : Domain)
    (h4 : validate_and_classify_ip s4 = .ok .V4)
    (h6 : validate_and_classify_ip s6 = .ok .V6)
    (hd : Domain.new q = .ok d) :
    (∀ e,
      (process_dns_record p (Credentials.new api_key secret_key) d s4 .A).1 =
        .error e →
      function_handler p
          { apikey := some api_key, secretapikey := some secret_key,
            domain := some q, ip := some s4, ipv6 := some s6 } =
        (json_response 500 "Failed to process A record".data,
          (process_dns_record p (Credentials.new api_key secret_key) d s4 .A).2)) ∧
    (∀ m4,
      (process_dns_record p (Credentials.new api_key secret_key) d s4 .A).1 =
        .ok m4 →
      (∀ e,
        (process_dns_record p (Credentials.new api_key secret_key) d s6 .AAAA).1 =
          .error e →
        function_handler p
            { apikey := some api_key, secretapikey := some secret_key,
              domain := some q, ip := some s4, ipv6 := some s6 } =
          (json_response 500 "Failed to process AAAA record".data,
            (process_dns_record p (Credentials.new api_key secret_key) d s4 .A).2 ++
              (process_dns_record p (Credentials.new api_key secret_key) d s6 .AAAA).2)) ∧
      (∀ m6,
        (process_dns_record p (Credentials.new api_key secret_key) d s6 .AAAA).1 =
          .ok m6 →
        function_handler p
            { apikey := some api_key, secretapikey := some secret_key,
              domain := some q, ip := some s4, ipv6 := some s6 } =
          (json_response 200 (m4 ++ "; ".data ++ m6),
            (process_dns_record p (Credentials.new api_key secret_key) d s4 .A).2 ++
              (process_dns_record p (Credentials.new api_key secret_key) d s6 .AAAA).2))) := by
  refine ⟨fun e he => ?_, fun m4 hm4 => ⟨fun e he => ?_, fun m6 hm6 => ?_⟩⟩
  · simp [function_handler, processIpParam, processIpv6Param, h4, h6, hd,
      processIpUpdates, IpUpdate.new, RecordType.fromIp, RecordType.as_str, he]
  · simp [function_handler, processIpParam, processIpv6Param, h4, h6, hd,
      processIpUpdates, IpUpdate.new, RecordType.fromIp, RecordType.as_str, hm4, he]
  · simp [function_handler, processIpParam, processIpv6Param, h4, h6, hd,
      processIpUpdates, IpUpdate.new, RecordType.fromIp, hm4, hm6,
      intercalate_pair]

/-- Witness for C5: the IPv4 lookup fails at the transport level; the result
is a 500 and the only provider call made is the IPv4-side lookup. -/
theorem c5_witness :
    function_handler providerTransportFail requestBoth =
      (json_response 500 "Failed to process A record".data,
        (process_dns_record providerTransportFail
          (Credentials.new "porkDyn".data "secret".data) domain0
          "192.168.1.1".data .A).2) :=
  (c5_spec providerTransportFail "porkDyn".data "secret".data
      "api.example.com".data "192.168.1.1".data "2001:db8::1".data domain0
      (by decide) (by decide) (by decide)).1
    { message := "connection reset".data } (by decide)

/-!
C9 — mismatched address families.
-/

/-- C9 (confirmed): an IPv6 literal in the `ip` parameter, or an IPv4
literal in the `ipv6` parameter, yields a 400 whose message names the
parameter to use instead, and no provider call is made. -/
theorem c9_spec (p : Provider) (api_key secret_key q : Str)
    (ipv6val : Option Str) (s : Str) :
    (validate_and_classify_ip s = .ok .V6 →
      function_handler p
          { apikey := some api_key, secretapikey := some secret_key,
            domain := some q, ip := some s, ipv6 := ipv6val } =
        (json_response 400
          "IPv6 address provided in 'ip' parameter, use 'ipv6' parameter instead".data,
          [])) ∧
    (∀ ipval ipv4u, processIpParam ipval = .ok ipv4u →
      validate_and_classify_ip s = .ok .V4 →
      function_handler p
          { apikey := some api_key, secretapikey := some secret_key,
            domain := some q, ip := ipval, ipv6 := some s } =
        (json_response 400
          "IPv4 address provided in 'ipv6' parameter, use 'ip' parameter instead".data,
          [])) ∧
    isSubstringOf "use 'ipv6' parameter instead".data
      "IPv6 address provided in 'ip' parameter, use 'ipv6' parameter instead".data =
      true ∧
    isSubstringOf "use 'ip' parameter instead".data
      "IPv4 address provided in 'ipv6' parameter, use 'ip' parameter instead".data =
      true := by
  refine ⟨fun h => ?_, fun ipval ipv4u hip h => ?_, by decide, by decide⟩
  · simp [function_handler, processIpParam, h]
  · simp [function_handler, processIpv6Param, hip, h]

/-- Witness for C9 at concrete literals: `2001:db8::1` in `ip` and
`192.168.1.1` in `ipv6`. -/
theorem c9_witness :
    function_handler providerHappy
        { apikey := some "porkDyn".data, secretapikey := some "secret".data,
          domain := some "api.example.com".data, ip := some "2001:db8::1".data,
          ipv6 := none } =
      (json_response 400
        "IPv6 address provided in 'ip' parameter, use 'ipv6' parameter instead".data,
        []) ∧
    function_handler providerHappy
        { apikey := some "porkDyn".data, secretapikey := some "secret".data,
          domain := some "api.example.com".data, ip := none,
          ipv6 := some "192.168.1.1".data } =
      (json_response 400
        "IPv4 address provided in 'ipv6' parameter, use 'ip' parameter instead".data,
        []) :=
  ⟨(c9_spec providerHappy "porkDyn".data "secret".data "api.example.com".data
      none "2001:db8::1".data).1 (by decide),
   (c9_spec providerHappy "porkDyn".data "secret".data "api.example.com".data
      none "192.168.1.1".data).2.1 none none rfl (by decide)⟩

/-!
C8 — response shape and aggregation.
-/

/-- Every short-circuit response of the `ip`-parameter check is a 400. -/
theorem processIpParam_error_shape (param : Option Str) (r : HttpResponse)
    (h : processIpParam param = .error r) : ∃ m, r = json_response 400 m := by
  cases param with
  | none => exact Except.noConfusion h
  | some s =>
    simp only [processIpParam] at h
    cases hv : validate_and_classify_ip s with
    | ok t =>
      cases t <;> rw [hv] at h <;> first
        | exact Except.noConfusion h
        | exact ⟨_, (Except.error.inj h).symm⟩
    | error e =>
      rw [hv] at h
      exact ⟨_, (Except.error.inj h).symm⟩

/-- Every short-circuit response of the `ipv6`-parameter check is a 400. -/
theorem processIpv6Param_error_shape (param : Option Str) (r : HttpResponse)
    (h : processIpv6Param param = .error r) : ∃ m, r = json_response 400 m := by
  cases param with
  | none => exact Except.noConfusion h
  | some s =>
    simp only [processIpv6Param] at h
    cases hv : validate_and_classify_ip s with
    | ok t =>
      cases t <;> rw [hv] at h <;> first
        | exact Except.noConfusion h
        | exact ⟨_, (Except.error.inj h).symm⟩
    | error e =>
      rw [hv] at h
      exact ⟨_, (Except.error.inj h).symm⟩

/-- C8 (confirmed): every response is a JSON body of the form
`\x7b"message": <text>\x7d` with status 400 (validation failures, which
issue no provider call), 500 (a failed per-address step, with the generic
per-record-type message), or 200 (all steps succeeded; the message is the
per-address outcome messages joined by "; " in processing order). -/
theorem c8_spec (p : Provider) (event : Request) :
    (∀ code m, (json_response code m).body =
      '\x7b' :: "\"message\":".data ++ jsonString m ++ ['\x7d']) ∧
    ((∃ m, (function_handler p event).1 = json_response 400 m ∧
        (function_handler p event).2 = []) ∨
     (∃ api_key secret_key q d ipv4 ipv6 rt,
        event.apikey = some api_key ∧ event.secretapikey = some secret_key ∧
        event.domain = some q ∧ processIpParam event.ip = .ok ipv4 ∧
        processIpv6Param event.ipv6 = .ok ipv6 ∧ Domain.new q = .ok d ∧
        processIpUpdates p (Credentials.new api_key secret_key) d
            ([ipv4, ipv6].filterMap id) =
          .error (rt, (function_handler p event).2) ∧
        (function_handler p event).1 =
          json_response 500
            ("Failed to process ".data ++ rt.as_str ++ " record".data)) ∨
     (∃ api_key secret_key q d ipv4 ipv6 results,
        event.apikey = some api_key ∧ event.secretapikey = some secret_key ∧
        event.domain = some q ∧ processIpParam event.ip = .ok ipv4 ∧
        processIpv6Param event.ipv6 = .ok ipv6 ∧ Domain.new q = .ok d ∧
        processIpUpdates p (Credentials.new api_key secret_key) d
            ([ipv4, ipv6].filterMap id) =
          .ok (results, (function_handler p event).2) ∧
        (function_handler p event).1 =
          json_response 200 (List.intercalate "; ".data results))) := by
  refine ⟨fun code m => rfl, ?_⟩
  rcases event with ⟨ak, sk, dom, ip, ip6⟩
  cases ak with
  | none => exact Or.inl ⟨_, rfl, rfl⟩
  | some api_key =>
  cases sk with
  | none => exact Or.inl ⟨_, rfl, rfl⟩
  | some secret_key =>
  cases dom with
  | none => exact Or.inl ⟨_, rfl, rfl⟩
  | some q =>
  cases h4 : processIpParam ip with
  | error r =>
    obtain ⟨m, rfl⟩ := processIpParam_error_shape ip r h4
    refine Or.inl ⟨m, ?_, ?_⟩ <;> simp [function_handler, h4]
  | ok ipv4 =>
  cases h6 : processIpv6Param ip6 with
  | error r =>
    obtain ⟨m, rfl⟩ := processIpv6Param_error_shape ip6 r h6
    refine Or.inl ⟨m, ?_, ?_⟩ <;> simp [function_handler, h4, h6]
  | ok ipv6 =>
  by_cases hnn : (ipv4.isNone && ipv6.isNone) = true
  · refine Or.inl
      ⟨"At least one IP address must be provided (ip or ipv6)".data, ?_, ?_⟩ <;>
      simp [function_handler, h4, h6, hnn]
  · cases hdm : Domain.new q with
    | error e =>
      refine Or.inl ⟨"Invalid subdomain format".data, ?_, ?_⟩ <;>
        simp [function_handler, h4, h6, hnn, hdm]
    | ok d =>
      cases hpu : processIpUpdates p (Credentials.new api_key secret_key) d
          ([ipv4, ipv6].filterMap id) with
      | error err =>
        obtain ⟨rt, calls⟩ := err
        have hfh : function_handler p
            { apikey := some api_key, secretapikey := some secret_key,
              domain := some q, ip := ip, ipv6 := ip6 } =
            (json_response 500
              ("Failed to process ".data ++ rt.as_str ++ " record".data), calls) := by
          simp [function_handler, h4, h6, hnn, hdm, hpu]
        refine Or.inr (Or.inl ⟨api_key, secret_key, q, d, ipv4, ipv6, rt,
          rfl, rfl, rfl, rfl, rfl, hdm, ?_, ?_⟩)
        · rw [hfh]
          exact hpu
        · rw [hfh]
      | ok res =>
        obtain ⟨results, calls⟩ := res
        have hfh : function_handler p
            { apikey := some api_key, secretapikey := some secret_key,
              domain := some q, ip := ip, ipv6 := ip6 } =
            (json_response 200 (List.intercalate "; ".data results), calls) := by
          simp [function_handler, h4, h6, hnn, hdm, hpu]
        refine Or.inr (Or.inr ⟨api_key, secret_key, q, d, ipv4, ipv6, results,
          rfl, rfl, rfl, rfl, rfl, hdm, ?_, ?_⟩)
        · rw [hfh]
          exact hpu
        · rw [hfh]

end PorkDyn

